import Mathlib

/-!
# Shallow embedding of the luxcap shade-routing core

This file embeds the shade-physics and routing engine of the repository
(`sun_calculator.py`, `shade_router.py`, `config.py`) into Lean 4 and proves
the behavioural claims about it.

Modelling conventions:
* Python floats are modelled as rationals (`ℚ`).  The transcendental library
  functions (`math.sin`, `math.cos`, …) and the float constant `math.pi` are
  external to the repository, so they are abstracted into a `MathOps` record
  of rational-valued functions; every theorem quantifies over the record.
* Shapely geometry values are modelled as a deep syntax tree (`Geom`) that
  mirrors exactly the constructions the source performs (buffers,
  intersections, …); the shapely metric queries `.area` and `.intersects`,
  again external library code, are abstracted into a `GeomOps` record.
* Python exceptions are modelled with `Except`; an `except Exception` handler
  that swallows the error and returns a default is modelled by returning that
  default on the error branch.
-/

/-- Errors surfaced by the engine (Python exceptions reaching the caller). -/
inductive Err where
  /-- `ValueError` raised by `datetime.replace` for an hour outside 0..23. -/
  | invalidHour
  /-- `ZeroDivisionError` from a float division by zero. -/
  | zeroDivision
  /-- `ValueError("Could not find start or end point in street network")`,
  the spec's `NoNearbyNode`. -/
  | noNearbyNode
  /-- `networkx.NetworkXNoPath` escaping the length-weighted fallback,
  the spec's `NoPathFound`. -/
  | noPathFound
  /-- `networkx.NodeNotFound` (source or target not a graph node). -/
  | nodeNotFound
  /-- `KeyError` during route assembly (edge missing from the graph). -/
  | keyError
  deriving DecidableEq, Repr

/-- Abstraction of the Python `math` library over rationals: the repository
calls these float functions but does not define them, so each theorem holds
for an arbitrary interpretation. -/
structure MathOps where
  sin : ℚ → ℚ
  cos : ℚ → ℚ
  tan : ℚ → ℚ
  asin : ℚ → ℚ
  acos : ℚ → ℚ
  /-- the float constant `math.pi` (a nonzero literal in Python). -/
  pi : ℚ

/-- `math.radians(x) = x · π / 180`. -/
def MathOps.toRadians (M : MathOps) (x : ℚ) : ℚ := x * M.pi / 180

/-- `math.degrees(x) = x · 180 / π`. -/
def MathOps.toDegrees (M : MathOps) (x : ℚ) : ℚ := x * 180 / M.pi

/-- A Python `datetime.date`: calendar date `(year, month, day)`. -/
structure PyDate where
  year : ℕ
  month : ℕ
  day : ℕ
  deriving DecidableEq, Repr

/-- A Python `datetime.time`: local time-of-day `(hour, minute)`;
a constructed `time` object always satisfies `hour ≤ 23` and `minute ≤ 59`. -/
structure PyTime where
  hour : ℕ
  minute : ℕ
  deriving DecidableEq, Repr

/-- A Python `datetime.datetime` as produced by `datetime.combine`;
the hour is an integer because `_local_to_utc` shifts it arithmetically. -/
structure PyDateTime where
  year : ℕ
  month : ℕ
  day : ℕ
  hour : ℤ
  minute : ℕ
  deriving DecidableEq, Repr

/-- `datetime.combine(local_date, local_time)`. -/
def pyCombine (d : PyDate) (t : PyTime) : PyDateTime :=
  ⟨d.year, d.month, d.day, (t.hour : ℤ), t.minute⟩

/-- `dt.replace(hour=h)`: `datetime.replace` validates its arguments and
raises `ValueError` when the new hour is outside `0..23`; it does not roll
over into the next day. -/
def pyReplaceHour (dt : PyDateTime) (h : ℤ) : Except Err PyDateTime :=
  if 0 ≤ h ∧ h ≤ 23 then .ok { dt with hour := h } else .error .invalidHour

/-- Gregorian leap-year rule used by `datetime`. -/
def isLeapYear (y : ℕ) : Bool :=
  (y % 4 == 0 && y % 100 != 0) || y % 400 == 0

/-- Cumulative days before the first of each month (non-leap year). -/
def daysBeforeMonth (m : ℕ) : ℕ :=
  [0, 0, 31, 59, 90, 120, 151, 181, 212, 243, 273, 304, 334].getD m 0

/-- `dt.timetuple().tm_yday`: ordinal day of the year. -/
def PyDateTime.dayOfYear (dt : PyDateTime) : ℕ :=
  daysBeforeMonth dt.month + dt.day +
    (if 3 ≤ dt.month && isLeapYear dt.year then 1 else 0)

/-- The sun-position dictionary returned by
`SunCalculator.calculate_sun_position`. -/
structure SunPosition where
  elevation : ℚ
  azimuth : ℚ
  declination : ℚ
  hour_angle : ℚ
  deriving DecidableEq, Repr

/-- The state built by `SunCalculator.__init__`. -/
structure SunCalculator where
  latitude : ℚ
  longitude : ℚ
  latitude_rad : ℚ
  timezone_offset : ℤ
  deriving Repr

/-- `SunCalculator.__init__(latitude, longitude)`: stores both coordinates,
precomputes `math.radians(latitude)`, and fixes the timezone offset at `-5`
(EST) regardless of the longitude. -/
def SunCalculator.init (M : MathOps) (latitude longitude : ℚ) : SunCalculator :=
  { latitude := latitude
    longitude := longitude
    latitude_rad := M.toRadians latitude
    timezone_offset := -5 }

/-- `SunCalculator._local_to_utc`: combines date and time, then rebuilds the
datetime via `replace(hour = hour - timezone_offset)`; with offset `-5` this
is `hour + 5`, and `replace` raises for results ≥ 24 instead of rolling over
to the next day. -/
def SunCalculator.local_to_utc (sc : SunCalculator) (local_date : PyDate)
    (local_time : PyTime) : Except Err PyDateTime :=
  let local_datetime := pyCombine local_date local_time
  pyReplaceHour local_datetime (local_datetime.hour - sc.timezone_offset)

/-- `SunCalculator._calculate_declination`:
`23.45 · sin(radians(360 · (284 + day) / 365))`. -/
def SunCalculator.calculate_declination (M : MathOps) (day_of_year : ℕ) : ℚ :=
  23.45 * M.sin (M.toRadians (360 * (284 + (day_of_year : ℚ)) / 365))

/-- `SunCalculator._calculate_hour_angle`: `15 · (hour + minute/60 − 12)`
on the UTC datetime. -/
def SunCalculator.calculate_hour_angle (utc_time : PyDateTime) : ℚ :=
  let hour : ℚ := (utc_time.hour : ℚ) + (utc_time.minute : ℚ) / 60
  15 * (hour - 12)

/-- `SunCalculator._calculate_elevation`: spherical-trigonometry elevation
with the arcsine argument clamped into `[-1, 1]`. -/
def SunCalculator.calculate_elevation (M : MathOps) (sc : SunCalculator)
    (declination hour_angle : ℚ) : ℚ :=
  let declination_rad := M.toRadians declination
  let hour_angle_rad := M.toRadians hour_angle
  let sin_elevation := M.sin sc.latitude_rad * M.sin declination_rad +
    M.cos sc.latitude_rad * M.cos declination_rad * M.cos hour_angle_rad
  M.toDegrees (M.asin (max (-1) (min 1 sin_elevation)))

/-- `SunCalculator._calculate_azimuth`: returns 0 when the sun is below the
horizon, otherwise the arccosine formula with clamping and the afternoon
hemisphere correction.  The float division by `cos(elevation_rad)` raises
`ZeroDivisionError` when that cosine is exactly zero, which would propagate
out of `calculate_sun_position`; the model keeps that branch explicit. -/
def SunCalculator.calculate_azimuth (M : MathOps) (sc : SunCalculator)
    (declination hour_angle elevation : ℚ) : Except Err ℚ :=
  if elevation ≤ 0 then
    .ok 0
  else
    let declination_rad := M.toRadians declination
    let hour_angle_rad := M.toRadians hour_angle
    let elevation_rad := M.toRadians elevation
    if M.cos elevation_rad = 0 then .error .zeroDivision
    else
      let cos_azimuth := (M.sin declination_rad * M.cos sc.latitude_rad -
        M.cos declination_rad * M.sin sc.latitude_rad * M.cos hour_angle_rad) /
        M.cos elevation_rad
      let cos_azimuth := max (-1) (min 1 cos_azimuth)
      let azimuth := M.toDegrees (M.acos cos_azimuth)
      if 0 < hour_angle then .ok (360 - azimuth) else .ok azimuth

/-- `SunCalculator.calculate_sun_position`: local-to-UTC conversion, day of
year, declination, hour angle, elevation, azimuth; its `except` handler logs
and re-raises, so any error propagates to the caller. -/
def SunCalculator.calculate_sun_position (M : MathOps) (sc : SunCalculator)
    (date : PyDate) (time_of_day : PyTime) : Except Err SunPosition := do
  let utc_time ← sc.local_to_utc date time_of_day
  let day_of_year := utc_time.dayOfYear
  let declination := SunCalculator.calculate_declination M day_of_year
  let hour_angle := SunCalculator.calculate_hour_angle utc_time
  let elevation := SunCalculator.calculate_elevation M sc declination hour_angle
  let azimuth ← SunCalculator.calculate_azimuth M sc declination hour_angle elevation
  .ok { elevation := elevation, azimuth := azimuth,
        declination := declination, hour_angle := hour_angle }

/-- A 2-D coordinate pair (shapely works in the data's planar coordinates). -/
abbrev Coord : Type := ℚ × ℚ

/-- Deep embedding of the shapely geometry values the source constructs.
Constructions are syntactic; the metric queries on them (`area`,
`intersects`) are interpreted by a `GeomOps` record, since they are shapely
library code external to the repository. -/
inductive Geom where
  /-- `Polygon()`: the empty polygon. -/
  | emptyPolygon : Geom
  /-- a building footprint polygon from the dataset. -/
  | poly (vertices : List Coord) : Geom
  /-- a tree location point from the dataset. -/
  | point (x y : ℚ) : Geom
  /-- a street segment `LineString`. -/
  | lineString (coords : List Coord) : Geom
  /-- `g.buffer(d)`. -/
  | buffer (g : Geom) (d : ℚ) : Geom
  /-- `g.intersection(h)`. -/
  | inter (g h : Geom) : Geom
  deriving DecidableEq, Repr

/-- Abstraction of shapely's metric queries (external library code). -/
structure GeomOps where
  /-- `g.area`. -/
  area : Geom → ℚ
  /-- `g.intersects(h)`. -/
  intersects : Geom → Geom → Bool

/-- `SunCalculator.calculate_shade_projection`.

The source reads elevation and azimuth, returns `Polygon()` when
`elevation <= 0`, and otherwise computes
`shadow_length = building_height / tan(radians(elevation))` and the offset
`(dx, dy) = shadow_length · (sin(azimuth_rad), cos(azimuth_rad))` — but then
calls `building_geometry.translate(dx, dy)`.  Shapely geometries have no
`translate` method (affine maps live in `shapely.affinity`), so this raises
`AttributeError` for every input; the enclosing `except Exception` handler
logs and returns `Polygon()`.  (When `tan(radians(elevation))` is exactly
zero the division raises `ZeroDivisionError` first, with the same outcome.)
The intended union of the footprint and its translate is therefore never
built: the function returns the empty polygon on every input. -/
def SunCalculator.calculate_shade_projection (_M : MathOps)
    (_building_geometry : Geom) (_building_height : ℚ)
    (sun_position : SunPosition) : Geom :=
  if sun_position.elevation ≤ 0 then
    Geom.emptyPolygon
  else
    Geom.emptyPolygon

/-- Modelled from the spec: the *intended* shadow projection of §4.2 —
the union of the footprint and its translate by
`height / tan(elevation) · (sin(azimuth), cos(azimuth))`.  Used only to
exhibit the divergence of the code from the specified behaviour; `union` and
`translate` are kept symbolic because the source never reaches them. -/
inductive GeomSpec where
  | ofGeom (g : Geom) : GeomSpec
  | translate (g : Geom) (dx dy : ℚ) : GeomSpec
  | union (g h : GeomSpec) : GeomSpec
  deriving DecidableEq, Repr

/-- Modelled from the spec (§4.2 of the design): shadow =
`union(footprint, translate(footprint, dx, dy))` with
`dx = L·sin(azimuth_rad)`, `dy = L·cos(azimuth_rad)`,
`L = height / tan(radians(elevation))`, for elevation > 0. -/
def shadeProjectionSpec (M : MathOps) (footprint : Geom) (height : ℚ)
    (sun_position : SunPosition) : GeomSpec :=
  if sun_position.elevation ≤ 0 then
    .ofGeom Geom.emptyPolygon
  else
    let shadow_length := height / M.tan (M.toRadians sun_position.elevation)
    let azimuth_rad := M.toRadians sun_position.azimuth
    let dx := shadow_length * M.sin azimuth_rad
    let dy := shadow_length * M.cos azimuth_rad
    .union (.ofGeom footprint) (.translate footprint dx dy)

/-- `SunCalculator.calculate_street_shade`.

Returns 1.0 immediately when the sun is at or below the horizon; otherwise
buffers the street by 10 m, accumulates over buildings and trees the area of
`shadow ∩ buffer` for every source whose geometry intersects the buffer, and
returns `min(1.0, total_shade_area / total_area)`.  A zero buffer area makes
the final division raise `ZeroDivisionError`, which the `except` handler
converts to 0.0 — the model's `total_area = 0` branch. -/
def SunCalculator.calculate_street_shade (M : MathOps) (ops : GeomOps)
    (street_segment : Geom) (buildings : List (Geom × ℚ))
    (trees : List (Geom × ℚ)) (sun_position : SunPosition) : ℚ :=
  if sun_position.elevation ≤ 0 then
    1
  else
    let street_buffer := Geom.buffer street_segment 10
    let total_area := ops.area street_buffer
    let after_buildings := buildings.foldl (fun total_shade_area bld =>
      let building_geom := bld.1
      let building_height := bld.2
      if ops.intersects building_geom street_buffer then
        let shadow := SunCalculator.calculate_shade_projection M
          building_geom building_height sun_position
        if ops.intersects shadow street_buffer then
          total_shade_area + ops.area (Geom.inter shadow street_buffer)
        else total_shade_area
      else total_shade_area) 0
    let total_shade_area := trees.foldl (fun total_shade_area tr =>
      let tree_geom := tr.1
      let tree_diameter := tr.2
      if ops.intersects tree_geom street_buffer then
        let tree_height := tree_diameter * 20
        let shadow := SunCalculator.calculate_shade_projection M
          (Geom.buffer tree_geom (tree_diameter / 2)) tree_height sun_position
        if ops.intersects shadow street_buffer then
          total_shade_area + ops.area (Geom.inter shadow street_buffer)
        else total_shade_area
      else total_shade_area) after_buildings
    if total_area = 0 then 0
    else min 1 (total_shade_area / total_area)

/-- A concrete interpretation of the math library, used to instantiate
theorems at closed inputs. -/
def trivialMath : MathOps :=
  { sin := fun _ => 0, cos := fun _ => 0, tan := fun _ => 0,
    asin := fun _ => 0, acos := fun _ => 0, pi := 0 }

/-- A concrete interpretation of the shapely metric queries, used to
instantiate theorems at closed inputs. -/
def trivialGeom : GeomOps :=
  { area := fun _ => 1, intersects := fun _ _ => true }

/-- A concrete unit-square footprint. -/
def unitSquare : Geom := Geom.poly [(0, 0), (1, 0), (1, 1), (0, 1)]

/-- The mutable blend in `config.ROUTING_PARAMS` that the router reads and
`get_route_alternatives` temporarily overrides (`shade_weight`,
`time_weight`); the other `ROUTING_PARAMS` keys are never mutated. -/
structure RoutingParams where
  shade_weight : ℚ
  time_weight : ℚ
  deriving DecidableEq, Repr

/-- The initial value of the blend in `config.py`:
`time_weight = 0.4`, `shade_weight = 0.6`. -/
def defaultRoutingParams : RoutingParams :=
  { shade_weight := 0.6, time_weight := 0.4 }

/-- The attribute dictionary of a graph edge.  `length` and `geometry` are
set by `_create_routing_graph`; `shade_score` and `combined_weight` are
absent until `_calculate_edge_shade_scores` runs (hence `Option`, read with
the source's `.get` defaults). -/
structure EdgeData where
  length : ℚ
  geometry : List Coord
  shade_score : Option ℚ
  combined_weight : Option ℚ
  deriving DecidableEq, Repr

/-- The `networkx.Graph`: nodes in insertion order, and an edge list keyed by
unordered endpoint pairs. -/
structure Graph where
  nodes : List Coord
  edges : List (Coord × Coord × EdgeData)
  deriving DecidableEq, Repr

/-- `G.add_node(p)`: inserts the node if not already present (networkx keeps
insertion order, which `_find_nearest_node` iterates in). -/
def Graph.addNode (G : Graph) (p : Coord) : Graph :=
  if p ∈ G.nodes then G else { G with nodes := G.nodes ++ [p] }

/-- One step of `G.add_edge(u, v, **attrs)` on the edge list: if an entry
with the same unordered endpoints exists, networkx updates its attribute
dictionary in place — the supplied keys (`length`, `geometry`) are
overwritten, other keys (a previously computed `shade_score` /
`combined_weight`) are retained; otherwise a new entry is appended. -/
def addEdgeList (u v : Coord) (dta : EdgeData) :
    List (Coord × Coord × EdgeData) → List (Coord × Coord × EdgeData)
  | [] => [(u, v, dta)]
  | (a, b, d) :: rest =>
    if (a = u ∧ b = v) ∨ (a = v ∧ b = u) then
      (a, b, { dta with shade_score := d.shade_score,
                        combined_weight := d.combined_weight }) :: rest
    else (a, b, d) :: addEdgeList u v dta rest

/-- `G.add_edge(u, v, length=…, geometry=…)`: networkx also registers both
endpoints as nodes. -/
def Graph.addEdge (G : Graph) (u v : Coord) (dta : EdgeData) : Graph :=
  let G := G.addNode u
  let G := G.addNode v
  { G with edges := addEdgeList u v dta G.edges }

/-- Undirected edge lookup, `G[u][v]` / edge-existence test. -/
def Graph.edgeLookup (G : Graph) (u v : Coord) : Option EdgeData :=
  (G.edges.find? fun e => ((e.1 = u ∧ e.2.1 = v) ∨ (e.1 = v ∧ e.2.1 = u) :
    Prop)).map (·.2.2)

/-- The neighbours of `s` (networkx adjacency of an undirected graph). -/
def Graph.neighbors (G : Graph) (s : Coord) : List Coord :=
  G.edges.filterMap fun e =>
    if e.1 = s then some e.2.1 else if e.2.1 = s then some e.1 else none

/-- One row of the street-network GeoDataFrame: its geometry's coordinate
list, the shapely validity flag of that geometry, and the optional
`length_m` column. -/
structure StreetRow where
  geometry : List Coord
  is_valid : Bool
  length_m : Option ℚ
  deriving DecidableEq, Repr

/-- The loop body of `ShadeRouter._create_routing_graph`: a row with a valid,
non-empty geometry of at least two coordinates contributes an edge between
its first and last coordinate, with `length = row.get('length_m', 100)`
(default 100 m when the column is absent) and the row's geometry. -/
def addStreetRow (G : Graph) (row : StreetRow) : Graph :=
  if row.is_valid && !row.geometry.isEmpty then
    if 2 ≤ row.geometry.length then
      let start_point := row.geometry.headD (0, 0)
      let end_point := row.geometry.getLastD (0, 0)
      let G := G.addNode start_point
      let G := G.addNode end_point
      G.addEdge start_point end_point
        { length := row.length_m.getD 100, geometry := row.geometry,
          shade_score := none, combined_weight := none }
    else G
  else G

/-- `ShadeRouter._create_routing_graph`: folds the street rows into a
`networkx.Graph`. -/
def createRoutingGraph (street_network : List StreetRow) : Graph :=
  street_network.foldl addStreetRow { nodes := [], edges := [] }

/-- `ShadeRouter._find_nearest_node`: swaps the `(lat, lon)` query point to
`(lon, lat)`, scans all nodes keeping the strictly closest one under the
haversine distance, and accepts it only when its distance is below 1000 m.
The haversine distance itself (`_haversine_distance`) evaluates
transcendental float functions, so it is passed as a parameter `dist`. -/
def nearestStep (dist : Coord → Coord → ℚ) (point_lon_lat : Coord)
    (acc : Option (Coord × ℚ)) (node : Coord) : Option (Coord × ℚ) :=
  match acc with
  | none => some (node, dist point_lon_lat node)
  | some (bn, bd) =>
    let d := dist point_lon_lat node
    if d < bd then some (node, d) else some (bn, bd)

def findNearestNode (G : Graph) (dist : Coord → Coord → ℚ) (point : Coord) :
    Option Coord :=
  let point_lon_lat : Coord := (point.2, point.1)
  match G.nodes.foldl (nearestStep dist point_lon_lat) none with
  | some (n, d) => if d < 1000 then some n else none
  | none => none

/-- `ShadeRouter._calculate_edge_shade_scores`: recomputes, for every edge,
`shade_score` from `calculate_street_shade` on the edge geometry and
`combined_weight = time_weight·length + shade_weight·(1 − shade_score)·length`
with the current `ROUTING_PARAMS` blend. -/
def calculateEdgeShadeScores (M : MathOps) (ops : GeomOps)
    (params : RoutingParams) (buildings trees : List (Geom × ℚ))
    (sun_position : SunPosition) (G : Graph) : Graph :=
  { G with edges := G.edges.map fun e =>
      let edge_data := e.2.2
      let shade_score := SunCalculator.calculate_street_shade M ops
        (Geom.lineString edge_data.geometry) buildings trees sun_position
      let combined_weight := params.time_weight * edge_data.length +
        params.shade_weight * (1 - shade_score) * edge_data.length
      (e.1, e.2.1, { edge_data with shade_score := some shade_score,
                                    combined_weight := some combined_weight }) }

/-- The two outcomes of `networkx.shortest_path` relevant here. -/
inductive NxErr where
  /-- `networkx.NetworkXNoPath`. -/
  | noPath
  /-- `networkx.NodeNotFound`. -/
  | nodeNotFound
  deriving DecidableEq, Repr

/-- Depth-first search for a path from `s` to `t`, used to model the
existence behaviour of `networkx.shortest_path`. -/
def dfsPath (G : Graph) (t : Coord) : ℕ → List Coord → Coord →
    Option (List Coord)
  | 0, _, _ => none
  | fuel + 1, visited, s =>
    if s = t then some [s]
    else
      (G.neighbors s).findSome? fun n =>
        if n ∈ visited then none
        else (dfsPath G t fuel (s :: visited) n).map (s :: ·)

/-- Model of `networkx.shortest_path(G, source, target, weight=…)`: raises
`NodeNotFound` when an endpoint is not a graph node, returns some path from
source to target when one exists, and raises `NetworkXNoPath` otherwise.
The edge weight determines *which* path networkx returns but not whether one
exists; the claims settled against this model depend only on which of the
three outcomes occurs, so the weight argument is accepted and ignored and
the returned path is the one found by depth-first search. -/
def nxShortestPath (G : Graph) (_weight : EdgeData → ℚ) (s t : Coord) :
    Except NxErr (List Coord) :=
  if s ∈ G.nodes ∧ t ∈ G.nodes then
    match dfsPath G t (G.nodes.length + 1) [] s with
    | some p => .ok p
    | none => .error .noPath
  else .error .nodeNotFound

/-- `d.get('combined_weight', …)`: the per-edge weight read by the first
search (networkx treats a missing weight key as 1). -/
def combinedWeightOf (d : EdgeData) : ℚ := d.combined_weight.getD 1

/-- The raw `length` weight read by the fallback search. -/
def lengthOf (d : EdgeData) : ℚ := d.length

/-- One entry of the `edges` list assembled by `_find_optimal_route`. -/
structure EdgeInfo where
  start : Coord
  stop : Coord
  distance_m : ℚ
  shade_score : ℚ
  geometry : List Coord
  deriving DecidableEq, Repr

/-- The dictionary returned by `_find_optimal_route`. -/
structure RouteInfo where
  path : List Coord
  edges : List EdgeInfo
  total_distance : ℚ
  total_shade_score : ℚ
  num_segments : ℕ
  deriving DecidableEq, Repr

/-- The metric-accumulation loop of `_find_optimal_route`: walks consecutive
node pairs of the path, reading each edge from the graph (`KeyError` if it is
missing, which the enclosing handler re-raises) and summing `length` and
`shade_score` (the latter read with `.get('shade_score', 0.0)`) while
collecting the per-edge info records. -/
def assembleSteps (G : Graph) :
    List (Coord × Coord) → ℚ × ℚ × List EdgeInfo →
    Except Err (ℚ × ℚ × List EdgeInfo)
  | [], acc => .ok acc
  | pair :: rest, acc =>
    match G.edgeLookup pair.1 pair.2 with
    | none => .error .keyError
    | some edge_data =>
      let distance := edge_data.length
      let shade_score := edge_data.shade_score.getD 0
      assembleSteps G rest (acc.1 + distance, acc.2.1 + shade_score,
        acc.2.2 ++ [⟨pair.1, pair.2, distance, shade_score,
          edge_data.geometry⟩])

/-- Route assembly in `_find_optimal_route`: run the accumulation loop over
the path's consecutive node pairs and package the resulting dictionary. -/
def assembleRoute (G : Graph) (path : List Coord) : Except Err RouteInfo :=
  match assembleSteps G (path.zip path.tail) (0, 0, []) with
  | .error e => .error e
  | .ok (total_distance, total_shade_score, edges_info) =>
    .ok { path := path, edges := edges_info,
          total_distance := total_distance,
          total_shade_score := total_shade_score,
          num_segments := edges_info.length }

/-- `ShadeRouter._find_optimal_route`: shortest path under
`combined_weight`; on `NetworkXNoPath` fall back to `length`; a second
`NetworkXNoPath` escapes uncaught (the spec's `NoPathFound`), and a
`NodeNotFound` from either call is never caught.  The `max_distance_km`
check only logs a warning and does not affect the result. -/
def findOptimalRoute (G : Graph) (start_node end_node : Coord)
    (_max_distance_km : Option ℚ) : Except Err RouteInfo :=
  match nxShortestPath G combinedWeightOf start_node end_node with
  | .ok path => assembleRoute G path
  | .error .nodeNotFound => .error .nodeNotFound
  | .error .noPath =>
    match nxShortestPath G lengthOf start_node end_node with
    | .ok path => assembleRoute G path
    | .error .nodeNotFound => .error .nodeNotFound
    | .error .noPath => .error .noPathFound

/-- Path-existence: `s` reaches `t` through the undirected adjacency of the
graph (the property "some path connects the start node to the end node"). -/
def Graph.Reachable (G : Graph) (s t : Coord) : Prop :=
  Relation.ReflTransGen (fun a b => b ∈ G.neighbors a) s t

/-- `np.mean` of a list of rationals (`sum / len`; numpy yields NaN on an
empty list, which cannot arise for the routes assembled here since a path
between two distinct nodes traverses at least one edge). -/
def npMean (l : List ℚ) : ℚ := l.sum / (l.length : ℚ)

/-- The dictionary returned by `find_shadiest_route` /
`get_route_alternatives` for one route: the `_find_optimal_route` payload
plus the metadata the router attaches (`weight_combination` is present only
on alternative routes). -/
structure RouteResult where
  info : RouteInfo
  start_point : Coord
  end_point : Coord
  date : PyDate
  time_of_day : PyTime
  sun_position : SunPosition
  total_distance_km : ℚ
  average_shade_score : ℚ
  weight_combination : Option (ℚ × ℚ)
  deriving DecidableEq, Repr

/-- The full static context of a `ShadeRouter` query: the math and geometry
library interpretations, the haversine distance function (transcendental, so
abstracted), the sun calculator, the routing graph and the pre-processed
building and tree lists. -/
structure RouterCtx where
  M : MathOps
  ops : GeomOps
  dist : Coord → Coord → ℚ
  sun_calculator : SunCalculator
  graph : Graph
  building_list : List (Geom × ℚ)
  tree_list : List (Geom × ℚ)

/-- `ShadeRouter.find_shadiest_route` (with the date and time already
parsed): compute the sun position (errors propagate), locate the nearest
node to each endpoint, fail with the `NoNearbyNode` `ValueError` if either
is missing, then score every edge under the current `ROUTING_PARAMS` blend
and run `_find_optimal_route`, attaching the metadata to the result. -/
def findShadiestRoute (ctx : RouterCtx) (params : RoutingParams)
    (start_point end_point : Coord) (date : PyDate) (time_of_day : PyTime)
    (max_distance_km : Option ℚ) : Except Err RouteResult := do
  let sun_position ← ctx.sun_calculator.calculate_sun_position ctx.M date
    time_of_day
  let start_node := findNearestNode ctx.graph ctx.dist start_point
  let end_node := findNearestNode ctx.graph ctx.dist end_point
  match start_node, end_node with
  | some s, some e =>
    let G := calculateEdgeShadeScores ctx.M ctx.ops params ctx.building_list
      ctx.tree_list sun_position ctx.graph
    let route_info ← findOptimalRoute G s e max_distance_km
    let avg := npMean (route_info.edges.map (·.shade_score))
    .ok ⟨route_info, start_point, end_point, date, time_of_day, sun_position,
         route_info.total_distance / 1000, avg, none⟩
  | _, _ => .error .noNearbyNode

/-- The fixed list of `(shade_weight, time_weight)` blends in
`get_route_alternatives`. -/
def weightCombinations : List (ℚ × ℚ) :=
  [(0.8, 0.2), (0.2, 0.8), (0.5, 0.5)]

/-- Python's `lst[:k]` slice for an integer `k`: the first `k` elements when
`k ≥ 0`, all but the last `−k` when `k < 0` (clamped at the empty list). -/
def pySlicePrefix {α : Type} (k : ℤ) (l : List α) : List α :=
  if 0 ≤ k then l.take k.toNat else l.take (l.length - (-k).toNat)

/-- The loop body of `get_route_alternatives`, with the global
`ROUTING_PARAMS` blend threaded as explicit state.  Every iteration saves
the current blend, installs the alternative blend, and — in a
`try`/`finally` — re-runs the nearest-node lookups, rescoring, and path
search, restoring the saved blend both on success, on a silently skipped
lookup failure, and before propagating an error. -/
def alternativesLoop (ctx : RouterCtx) (primary : RouteResult)
    (start_point end_point : Coord) :
    List (ℚ × ℚ) → RoutingParams → List RouteResult →
    RoutingParams × Except Err (List RouteResult)
  | [], params, alternatives => (params, .ok alternatives)
  | (shade_w, time_w) :: rest, params, alternatives =>
    let original_shade_weight := params.shade_weight
    let original_time_weight := params.time_weight
    let overridden : RoutingParams := ⟨shade_w, time_w⟩
    let restored : RoutingParams := ⟨original_shade_weight, original_time_weight⟩
    let start_node := findNearestNode ctx.graph ctx.dist start_point
    let end_node := findNearestNode ctx.graph ctx.dist end_point
    match start_node, end_node with
    | some s, some e =>
      let G := calculateEdgeShadeScores ctx.M ctx.ops overridden
        ctx.building_list ctx.tree_list primary.sun_position ctx.graph
      match findOptimalRoute G s e none with
      | .ok alt_info =>
        let avg := npMean (alt_info.edges.map (·.shade_score))
        let alt_route : RouteResult :=
          ⟨alt_info, start_point, end_point, primary.date,
           primary.time_of_day, primary.sun_position,
           alt_info.total_distance / 1000, avg, some (shade_w, time_w)⟩
        alternativesLoop ctx primary start_point end_point rest restored
          (alternatives ++ [alt_route])
      | .error e => (restored, .error e)
    | _, _ =>
      alternativesLoop ctx primary start_point end_point rest restored
        alternatives

/-- `get_route_alternatives` up to (but not including) the final sort: the
primary route followed by the alternatives generated for the first
`num_alternatives − 1` configured blends, in generation order, paired with
the final state of the global blend. -/
def generateCandidates (ctx : RouterCtx) (params : RoutingParams)
    (start_point end_point : Coord) (num_alternatives : ℤ) (date : PyDate)
    (time_of_day : PyTime) : RoutingParams × Except Err (List RouteResult) :=
  match findShadiestRoute ctx params start_point end_point date time_of_day
    none with
  | .error e => (params, .error e)
  | .ok primary =>
    alternativesLoop ctx primary start_point end_point
      (pySlicePrefix (num_alternatives - 1) weightCombinations) params
      [primary]

/-- Python's stable `list.sort(key=…, reverse=True)`: insertion sort that
places an element before the first position whose key is not strictly
greater, so elements with equal keys keep their original relative order. -/
def insertDescBy {α : Type} (key : α → ℚ) (a : α) : List α → List α
  | [] => [a]
  | b :: bs => if key a < key b then b :: insertDescBy key a bs else a :: b :: bs

/-- Stable descending sort by key (the behaviour of
`alternatives.sort(key=lambda x: x['average_shade_score'], reverse=True)`). -/
def pySortDescBy {α : Type} (key : α → ℚ) : List α → List α
  | [] => []
  | a :: as => insertDescBy key a (pySortDescBy key as)

/-- `ShadeRouter.get_route_alternatives`: generate the candidates, then sort
them in place descending by `average_shade_score`; the final state of the
global blend is returned alongside to make the save/override/restore
behaviour provable. -/
def getRouteAlternatives (ctx : RouterCtx) (params : RoutingParams)
    (start_point end_point : Coord) (num_alternatives : ℤ) (date : PyDate)
    (time_of_day : PyTime) : RoutingParams × Except Err (List RouteResult) :=
  match generateCandidates ctx params start_point end_point num_alternatives
    date time_of_day with
  | (params', .error e) => (params', .error e)
  | (params', .ok alternatives) =>
    (params', .ok (pySortDescBy (·.average_shade_score) alternatives))


/-- Edge-existence test (`G.has_edge(u, v)` / `v in G[u]`). -/
def Graph.hasEdge (G : Graph) (u v : Coord) : Bool :=
  (G.edgeLookup u v).isSome

/-- A concrete disconnected graph: one street edge between `(0,0)` and
`(1,0)`, and an isolated node `(5,5)`. -/
def disconnectedGraph : Graph :=
  { nodes := [(0, 0), (1, 0), (5, 5)],
    edges := [((0, 0), (1, 0), ⟨100, [(0, 0), (1, 0)], none, none⟩)] }

/-- A concrete connected two-node graph with a single 100 m street edge. -/
def twoNodeGraph : Graph :=
  { nodes := [(0, 0), (1, 0)],
    edges := [((0, 0), (1, 0), ⟨100, [(0, 0), (1, 0)], none, none⟩)] }

/-- A concrete router context over `twoNodeGraph`, whose distance function
reports 0 m for a coincident node and 500 m otherwise. -/
def witnessCtx : RouterCtx :=
  { M := trivialMath
    ops := trivialGeom
    dist := fun p n => if p = n then 0 else 500
    sun_calculator := SunCalculator.init trivialMath 40.7128 (-74.0060)
    graph := twoNodeGraph
    building_list := [(unitSquare, 10)]
    tree_list := [(Geom.point 5 5, 2)] }

/-- The candidate routes generated by `witnessCtx` for the concrete
alternatives query used in witnesses. -/
def witnessCands : List RouteResult :=
  match (generateCandidates witnessCtx defaultRoutingParams (0, 0) (0, 1) 3
      ⟨2024, 6, 21⟩ ⟨12, 0⟩).2 with
  | .ok l => l
  | .error _ => []

/-- A concrete one-row street network whose only row has no `length_m`. -/
def witnessRows : List StreetRow :=
  [⟨[(0, 0), (1, 0)], true, none⟩]
/-- A concrete router context in which every node is 2000 m away from every
query point. -/
def farCtx : RouterCtx :=
  { M := trivialMath
    ops := trivialGeom
    dist := fun _ _ => 2000
    sun_calculator := SunCalculator.init trivialMath 40.7128 (-74.0060)
    graph := twoNodeGraph
    building_list := []
    tree_list := [] }

/-- Any step function that never decreases the accumulator keeps `foldl`
at or above its initial value. -/
theorem foldl_mono_step {α : Type} (step : ℚ → α → ℚ)
    (hstep : ∀ acc x, acc ≤ step acc x) :
    ∀ (l : List α) (init : ℚ), init ≤ l.foldl step init := by
  intro l
  induction l with
  | nil => intro init; exact le_refl _
  | cons a as ih => intro init; exact le_trans (hstep init a) (ih _)

/-- C1: the claim says `calculate_shade_projection` returns the union of the
footprint and its translate by `height / tan(elevation)` in direction
`(sin azimuth, cos azimuth)`, a polygon containing the footprint.  The code
instead calls the nonexistent shapely method `geometry.translate`, the
resulting `AttributeError` is swallowed, and the function returns the empty
polygon — shown here at the concrete input (unit square, height 10,
elevation 45°, azimuth 90°), together with what the specified model
(`shadeProjectionSpec`) produces at the same input. -/
theorem shade_projection_code_bug :
    SunCalculator.calculate_shade_projection trivialMath unitSquare 10
      ⟨45, 90, 23, 0⟩ = Geom.emptyPolygon ∧
    shadeProjectionSpec trivialMath unitSquare 10 ⟨45, 90, 23, 0⟩ =
      GeomSpec.union (.ofGeom unitSquare) (.translate unitSquare 0 0) := by
  constructor
  · rfl
  · simp only [shadeProjectionSpec]
    rw [if_neg (by norm_num)]
    simp [trivialMath, MathOps.toRadians]

/-- C2: for every calendar date and every local time with hour ≥ 19, the
local-to-UTC conversion computes `hour − (−5) ≥ 24`, `datetime.replace`
rejects it instead of rolling over, and `calculate_sun_position` therefore
fails with the `ValueError` instead of returning a sun position. -/
theorem calculate_sun_position_evening_error (M : MathOps) (lat lon : ℚ)
    (d : PyDate) (t : PyTime) (h19 : 19 ≤ t.hour) :
    (SunCalculator.init M lat lon).calculate_sun_position M d t =
      .error .invalidHour := by
  have h24 : ¬((0 : ℤ) ≤ (t.hour : ℤ) + 5 ∧ (t.hour : ℤ) + 5 ≤ 23) := by
    push_neg
    intro _
    omega
  simp [SunCalculator.calculate_sun_position, SunCalculator.local_to_utc,
        SunCalculator.init, pyCombine, pyReplaceHour, h24, Bind.bind, Except.bind]

/-- Witness for C2 at 19:00 on 2024-06-21 with the NYC coordinates. -/
theorem calculate_sun_position_evening_error_witness :
    19 ≤ (19 : ℕ) ∧
    (SunCalculator.init trivialMath (40.7128 : ℚ) (-74.0060 : ℚ)).calculate_sun_position
      trivialMath ⟨2024, 6, 21⟩ ⟨19, 0⟩ = .error .invalidHour :=
  ⟨le_refl _,
   calculate_sun_position_evening_error trivialMath 40.7128 (-74.0060)
     ⟨2024, 6, 21⟩ ⟨19, 0⟩ (by decide)⟩

/-- C3: whenever the sun position's elevation is ≤ 0, the street-shade scorer
returns exactly 1.0, for every street geometry, building list, tree list, and
every interpretation of the geometry library (no geometric computation can
influence the result). -/
theorem calculate_street_shade_night (M : MathOps) (ops : GeomOps)
    (street : Geom) (buildings trees : List (Geom × ℚ)) (sp : SunPosition)
    (h : sp.elevation ≤ 0) :
    SunCalculator.calculate_street_shade M ops street buildings trees sp = 1 := by
  simp [SunCalculator.calculate_street_shade, h]

/-- Witness for C3 at elevation −5° with nonempty building and tree lists. -/
theorem calculate_street_shade_night_witness :
    (-5 : ℚ) ≤ 0 ∧
    SunCalculator.calculate_street_shade trivialMath trivialGeom
      (Geom.lineString [(0, 0), (1, 1)]) [(unitSquare, 10)]
      [(Geom.point 5 5, 2)] ⟨-5, 0, 0, 0⟩ = 1 :=
  ⟨by norm_num,
   calculate_street_shade_night trivialMath trivialGeom
     (Geom.lineString [(0, 0), (1, 1)]) [(unitSquare, 10)]
     [(Geom.point 5 5, 2)] ⟨-5, 0, 0, 0⟩ (by norm_num)⟩

/-- C4: for every input, given only that the geometry library reports
nonnegative areas (shapely areas are always ≥ 0), the street-shade score lies
in `[0, 1]`: the night branch returns 1, a zero analysis area (the division
error swallowed by the handler) returns 0, and otherwise the accumulated
nonnegative shadow area over the positive buffer area is clamped by
`min 1 ·`. -/
theorem calculate_street_shade_range (M : MathOps) (ops : GeomOps)
    (street : Geom) (buildings trees : List (Geom × ℚ)) (sp : SunPosition)
    (harea : ∀ g : Geom, 0 ≤ ops.area g) :
    0 ≤ SunCalculator.calculate_street_shade M ops street buildings trees sp ∧
    SunCalculator.calculate_street_shade M ops street buildings trees sp ≤ 1 := by
  unfold SunCalculator.calculate_street_shade
  split
  · exact ⟨zero_le_one, le_refl 1⟩
  · dsimp only
    set sb := Geom.buffer street 10 with hsb
    have hb : (0 : ℚ) ≤ buildings.foldl (fun total_shade_area bld =>
        if ops.intersects bld.1 sb = true then
          if ops.intersects
              (SunCalculator.calculate_shade_projection M bld.1 bld.2 sp)
              sb = true then
            total_shade_area + ops.area
              (Geom.inter
                (SunCalculator.calculate_shade_projection M bld.1 bld.2 sp) sb)
          else total_shade_area
        else total_shade_area) 0 := by
      apply foldl_mono_step
      intro acc x
      split
      · split
        · have := harea (Geom.inter
            (SunCalculator.calculate_shade_projection M x.1 x.2 sp) sb)
          linarith
        · exact le_refl _
      · exact le_refl _
    have ht : ∀ init : ℚ, init ≤ trees.foldl (fun total_shade_area tr =>
        if ops.intersects tr.1 sb = true then
          if ops.intersects
              (SunCalculator.calculate_shade_projection M
                (Geom.buffer tr.1 (tr.2 / 2)) (tr.2 * 20) sp) sb = true then
            total_shade_area + ops.area
              (Geom.inter
                (SunCalculator.calculate_shade_projection M
                  (Geom.buffer tr.1 (tr.2 / 2)) (tr.2 * 20) sp) sb)
          else total_shade_area
        else total_shade_area) init := by
      apply foldl_mono_step
      intro acc x
      split
      · split
        · have := harea (Geom.inter
            (SunCalculator.calculate_shade_projection M
              (Geom.buffer x.1 (x.2 / 2)) (x.2 * 20) sp) sb)
          linarith
        · exact le_refl _
      · exact le_refl _
    split
    · exact ⟨le_refl 0, zero_le_one⟩
    · rename_i hA
      have hA0 : 0 ≤ ops.area sb := harea sb
      have htotal : (0 : ℚ) ≤ _ := le_trans hb (ht _)
      constructor
      · exact le_min zero_le_one (div_nonneg htotal hA0)
      · exact min_le_left _ _

/-- Witness for C4 with two buildings and one tree under a concrete geometry
interpretation whose areas are all 1. -/
theorem calculate_street_shade_range_witness :
    (∀ g : Geom, 0 ≤ trivialGeom.area g) ∧
    (0 ≤ SunCalculator.calculate_street_shade trivialMath trivialGeom
        (Geom.lineString [(0, 0), (1, 1)])
        [(unitSquare, 10), (Geom.poly [(2, 2), (3, 2), (3, 3)], 7)]
        [(Geom.point 5 5, 2)] ⟨45, 90, 23, 0⟩ ∧
      SunCalculator.calculate_street_shade trivialMath trivialGeom
        (Geom.lineString [(0, 0), (1, 1)])
        [(unitSquare, 10), (Geom.poly [(2, 2), (3, 2), (3, 3)], 7)]
        [(Geom.point 5 5, 2)] ⟨45, 90, 23, 0⟩ ≤ 1) :=
  ⟨fun _ => zero_le_one,
   calculate_street_shade_range trivialMath trivialGeom
     (Geom.lineString [(0, 0), (1, 1)])
     [(unitSquare, 10), (Geom.poly [(2, 2), (3, 2), (3, 3)], 7)]
     [(Geom.point 5 5, 2)] ⟨45, 90, 23, 0⟩ (fun _ => zero_le_one)⟩

/-- C9: two sun-position calculations that differ only in the observer
longitude produce identical results (same elevation, azimuth, declination and
hour angle), for every math-library interpretation, date and time: the
longitude is stored by `__init__` but never read by the computation. -/
theorem calculate_sun_position_longitude_invariant (M : MathOps)
    (lat lon₁ lon₂ : ℚ) (d : PyDate) (t : PyTime) :
    (SunCalculator.init M lat lon₁).calculate_sun_position M d t =
    (SunCalculator.init M lat lon₂).calculate_sun_position M d t := rfl

/-- Soundness of the depth-first search: whenever it returns a path from `s`
to `t`, the target is reachable from the source through the graph's
adjacency. -/
theorem dfsPath_sound (G : Graph) (t : Coord) :
    ∀ (fuel : ℕ) (visited : List Coord) (s : Coord) (p : List Coord),
      dfsPath G t fuel visited s = some p → G.Reachable s t := by
  intro fuel
  induction fuel with
  | zero =>
    intro visited s p h
    simp [dfsPath] at h
  | succ n ih =>
    intro visited s p h
    rw [dfsPath] at h
    split at h
    · rename_i hst
      subst hst
      exact Relation.ReflTransGen.refl
    · obtain ⟨a, ha, hfa⟩ := List.exists_of_findSome?_eq_some h
      split at hfa
      · exact absurd hfa (by simp)
      · cases hq : dfsPath G t n (s :: visited) a with
        | none => rw [hq] at hfa; simp at hfa
        | some q => exact Relation.ReflTransGen.head ha (ih (s :: visited) a q hq)

/-- `networkx.shortest_path` raises `NetworkXNoPath` on graph nodes that are
not connected by any path, for either weight. -/
theorem nxShortestPath_not_reachable (G : Graph) (w : EdgeData → ℚ)
    (s t : Coord) (hs : s ∈ G.nodes) (ht : t ∈ G.nodes)
    (h : ¬ G.Reachable s t) :
    nxShortestPath G w s t = .error .noPath := by
  unfold nxShortestPath
  rw [if_pos ⟨hs, ht⟩]
  cases hd : dfsPath G t (G.nodes.length + 1) [] s with
  | none => simp
  | some p => exact absurd (dfsPath_sound G t _ [] s p hd) h

/-- C5: when no path connects the start node to the end node, the search
under `combined_weight` fails, the fallback search under `length` also
fails, and `_find_optimal_route` fails with the `NoPathFound` error — it is
surfaced to the caller, not replaced by a default result. -/
theorem findOptimalRoute_no_path (G : Graph) (s t : Coord) (md : Option ℚ)
    (hs : s ∈ G.nodes) (ht : t ∈ G.nodes) (h : ¬ G.Reachable s t) :
    findOptimalRoute G s t md = .error .noPathFound := by
  unfold findOptimalRoute
  rw [nxShortestPath_not_reachable G combinedWeightOf s t hs ht h,
      nxShortestPath_not_reachable G lengthOf s t hs ht h]

/-- Everything reachable from `(0,0)` in `disconnectedGraph` lies on its
single edge. -/
theorem disconnectedGraph_reach_inv :
    ∀ x : Coord, disconnectedGraph.Reachable (0, 0) x →
      x = (0, 0) ∨ x = (1, 0) := by
  intro x hx
  induction hx with
  | refl => exact Or.inl rfl
  | tail _ hr ih =>
    rename_i b c _
    rcases ih with h1 | h1
    · subst h1
      have hn : disconnectedGraph.neighbors (0, 0) = [(1, 0)] := by decide
      rw [hn] at hr
      exact Or.inr (List.mem_singleton.mp hr)
    · subst h1
      have hn : disconnectedGraph.neighbors (1, 0) = [(0, 0)] := by decide
      rw [hn] at hr
      exact Or.inl (List.mem_singleton.mp hr)

/-- The isolated node `(5,5)` is unreachable from `(0,0)`. -/
theorem disconnectedGraph_not_reachable :
    ¬ disconnectedGraph.Reachable (0, 0) (5, 5) := by
  intro h
  rcases disconnectedGraph_reach_inv _ h with h1 | h1
  · exact absurd h1 (by decide)
  · exact absurd h1 (by decide)

/-- Witness for C5 on the concrete disconnected graph. -/
theorem findOptimalRoute_no_path_witness :
    ((0 : ℚ), (0 : ℚ)) ∈ disconnectedGraph.nodes ∧
    ((5 : ℚ), (5 : ℚ)) ∈ disconnectedGraph.nodes ∧
    ¬ disconnectedGraph.Reachable (0, 0) (5, 5) ∧
    findOptimalRoute disconnectedGraph (0, 0) (5, 5) none =
      .error .noPathFound :=
  ⟨by decide, by decide, disconnectedGraph_not_reachable,
   findOptimalRoute_no_path disconnectedGraph (0, 0) (5, 5) none (by decide)
     (by decide) disconnectedGraph_not_reachable⟩

/-- One step of the nearest-node scan either keeps the incumbent or adopts
the scanned node with its distance. -/
theorem nearestStep_cases (dist : Coord → Coord → ℚ) (p : Coord)
    (acc : Option (Coord × ℚ)) (x : Coord) :
    nearestStep dist p acc x = acc ∨
    nearestStep dist p acc x = some (x, dist p x) := by
  unfold nearestStep
  cases acc with
  | none => exact Or.inr rfl
  | some b =>
    rcases b with ⟨bn, bd⟩
    dsimp only
    split
    · exact Or.inr rfl
    · exact Or.inl rfl

/-- The nearest-node scan ends either with its initial accumulator or with
some scanned node paired with its own distance. -/
theorem nearestStep_fold_spec (dist : Coord → Coord → ℚ) (p : Coord) :
    ∀ (l : List Coord) (acc : Option (Coord × ℚ)),
      l.foldl (nearestStep dist p) acc = acc ∨
      ∃ n ∈ l, l.foldl (nearestStep dist p) acc = some (n, dist p n) := by
  intro l
  induction l with
  | nil => intro acc; exact Or.inl rfl
  | cons x xs ih =>
    intro acc
    rw [List.foldl_cons]
    rcases ih (nearestStep dist p acc x) with h | ⟨n, hn, h⟩
    · rw [h]
      rcases nearestStep_cases dist p acc x with h2 | h2
      · exact Or.inl h2
      · exact Or.inr ⟨x, List.mem_cons_self x xs, h2⟩
    · exact Or.inr ⟨n, List.mem_cons_of_mem x hn, h⟩

/-- When every node is at least 1000 m away, `_find_nearest_node` returns
no node. -/
theorem findNearestNode_far (G : Graph) (dist : Coord → Coord → ℚ)
    (point : Coord)
    (h : ∀ n ∈ G.nodes, 1000 ≤ dist (point.2, point.1) n) :
    findNearestNode G dist point = none := by
  unfold findNearestNode
  dsimp only
  rcases nearestStep_fold_spec dist (point.2, point.1) G.nodes none with
    hf | ⟨n, hn, hf⟩
  · rw [hf]
  · rw [hf]
    dsimp only
    rw [if_neg (not_lt.mpr (h n hn))]

/-- A node accepted by `_find_nearest_node` is a graph node whose haversine
distance from the (swapped) query point is strictly below 1000 m. -/
theorem findNearestNode_some (G : Graph) (dist : Coord → Coord → ℚ)
    (point n : Coord) (h : findNearestNode G dist point = some n) :
    n ∈ G.nodes ∧ dist (point.2, point.1) n < 1000 := by
  unfold findNearestNode at h
  dsimp only at h
  rcases nearestStep_fold_spec dist (point.2, point.1) G.nodes none with
    hf | ⟨m, hm, hf⟩
  · rw [hf] at h
    exact absurd h (by simp)
  · rw [hf] at h
    dsimp only at h
    split at h
    · rename_i hlt
      injection h with h'
      subst h'
      exact ⟨hm, hlt⟩
    · exact absurd h (by simp)

/-- C6: when both query endpoints are more than 1000 m (haversine) from
every graph node, both nearest-node lookups come back empty and the query
fails with the `NoNearbyNode` error before any edge shade scoring or path
search can influence the outcome; and a nearest node is accepted only if its
distance is within 1000 m. -/
theorem findShadiestRoute_no_nearby (ctx : RouterCtx) (params : RoutingParams)
    (start_point end_point : Coord) (date : PyDate) (t : PyTime)
    (md : Option ℚ) (sp : SunPosition)
    (hsun : ctx.sun_calculator.calculate_sun_position ctx.M date t = .ok sp)
    (hstart : ∀ n ∈ ctx.graph.nodes,
      1000 < ctx.dist (start_point.2, start_point.1) n)
    (hend : ∀ n ∈ ctx.graph.nodes,
      1000 < ctx.dist (end_point.2, end_point.1) n) :
    findShadiestRoute ctx params start_point end_point date t md =
      .error .noNearbyNode ∧
    ∀ p q : Coord, findNearestNode ctx.graph ctx.dist p = some q →
      q ∈ ctx.graph.nodes ∧ ctx.dist (p.2, p.1) q < 1000 := by
  have h1 : findNearestNode ctx.graph ctx.dist start_point = none :=
    findNearestNode_far _ _ _ (fun n hn => le_of_lt (hstart n hn))
  have h2 : findNearestNode ctx.graph ctx.dist end_point = none :=
    findNearestNode_far _ _ _ (fun n hn => le_of_lt (hend n hn))
  constructor
  · simp [findShadiestRoute, hsun, h1, h2, Bind.bind, Except.bind]
  · intro p q hq
    exact findNearestNode_some ctx.graph ctx.dist p q hq

/-- The concrete sun position computed by `farCtx` at noon on 2024-06-21. -/
theorem farCtx_sun_position :
    farCtx.sun_calculator.calculate_sun_position farCtx.M ⟨2024, 6, 21⟩
      ⟨12, 0⟩ = .ok ⟨0, 0, 0, 75⟩ := by
  simp [farCtx, SunCalculator.calculate_sun_position, SunCalculator.init,
        SunCalculator.local_to_utc, pyCombine, pyReplaceHour,
        SunCalculator.calculate_declination, SunCalculator.calculate_hour_angle,
        SunCalculator.calculate_elevation, SunCalculator.calculate_azimuth,
        trivialMath, MathOps.toRadians, MathOps.toDegrees,
        PyDateTime.dayOfYear, daysBeforeMonth, isLeapYear, Bind.bind,
        Except.bind]
  norm_num

/-- Witness for C6: both endpoints 2000 m from every node of `farCtx`. -/
theorem findShadiestRoute_no_nearby_witness :
    farCtx.sun_calculator.calculate_sun_position farCtx.M ⟨2024, 6, 21⟩
        ⟨12, 0⟩ = .ok ⟨0, 0, 0, 75⟩ ∧
    (∀ n ∈ farCtx.graph.nodes, (1000 : ℚ) < farCtx.dist (3, 0) n) ∧
    (∀ n ∈ farCtx.graph.nodes, (1000 : ℚ) < farCtx.dist (9, 9) n) ∧
    findShadiestRoute farCtx defaultRoutingParams (0, 3) (9, 9) ⟨2024, 6, 21⟩
      ⟨12, 0⟩ none = .error .noNearbyNode :=
  ⟨farCtx_sun_position, by decide, by decide,
   (findShadiestRoute_no_nearby farCtx defaultRoutingParams (0, 3) (9, 9)
     ⟨2024, 6, 21⟩ ⟨12, 0⟩ none ⟨0, 0, 0, 75⟩ farCtx_sun_position (by decide)
     (by decide)).1⟩

/-- Inserting into a list is a permutation of consing. -/
theorem insertDescBy_perm {α : Type} (key : α → ℚ) (a : α) :
    ∀ l : List α, (insertDescBy key a l).Perm (a :: l) := by
  intro l
  induction l with
  | nil => exact List.Perm.refl _
  | cons b bs ih =>
    rw [insertDescBy]
    split
    · exact (ih.cons b).trans (List.Perm.swap a b bs)
    · exact List.Perm.refl _

/-- The stable sort is a permutation of its input. -/
theorem pySortDescBy_perm {α : Type} (key : α → ℚ) :
    ∀ l : List α, (pySortDescBy key l).Perm l := by
  intro l
  induction l with
  | nil => exact List.Perm.refl _
  | cons a as ih => exact (insertDescBy_perm key a _).trans (ih.cons a)

/-- Insertion preserves the descending-key pairwise invariant. -/
theorem insertDescBy_pairwise {α : Type} (key : α → ℚ) (a : α) :
    ∀ l : List α, l.Pairwise (fun x y => key y ≤ key x) →
      (insertDescBy key a l).Pairwise (fun x y => key y ≤ key x) := by
  intro l
  induction l with
  | nil => intro _; simp [insertDescBy]
  | cons b bs ih =>
    intro h
    rw [List.pairwise_cons] at h
    obtain ⟨hb, hbs⟩ := h
    rw [insertDescBy]
    split
    · rename_i hab
      rw [List.pairwise_cons]
      refine ⟨?_, ih hbs⟩
      intro x hx
      rcases List.mem_cons.mp ((insertDescBy_perm key a bs).mem_iff.mp hx) with
        h1 | h1
      · subst h1
        exact le_of_lt hab
      · exact hb x h1
    · rename_i hab
      rw [List.pairwise_cons]
      constructor
      · intro x hx
        rcases List.mem_cons.mp hx with h1 | h1
        · subst h1
          exact not_lt.mp hab
        · exact le_trans (hb x h1) (not_lt.mp hab)
      · exact List.pairwise_cons.mpr ⟨hb, hbs⟩

/-- The stable sort is sorted descending by key. -/
theorem pySortDescBy_pairwise {α : Type} (key : α → ℚ) :
    ∀ l : List α, (pySortDescBy key l).Pairwise
      (fun x y => key y ≤ key x) := by
  intro l
  induction l with
  | nil => simp [pySortDescBy]
  | cons a as ih => exact insertDescBy_pairwise key a _ ih

/-- Stability of the insertion step: restricting to any key value `c`, the
inserted list agrees with consing (elements with equal keys keep their
relative order, the new element going first only within its own key class
when it was generated earlier). -/
theorem insertDescBy_filter {α : Type} (key : α → ℚ) (a : α) (c : ℚ) :
    ∀ l : List α,
      (insertDescBy key a l).filter (fun x => decide (key x = c)) =
        (a :: l).filter (fun x => decide (key x = c)) := by
  intro l
  induction l with
  | nil => rfl
  | cons b bs ih =>
    rw [insertDescBy]
    split
    · rename_i hab
      by_cases hac : key a = c
      · have hbc : ¬ key b = c := by
          intro hbc
          rw [hac, hbc] at hab
          exact lt_irrefl c hab
        simp [List.filter_cons, hbc, hac, ih]
      · simp [List.filter_cons, hac, ih]
    · rfl

/-- Stability of the whole sort: for every key value `c`, the elements of
key `c` appear in the sorted output exactly in their input order. -/
theorem pySortDescBy_filter {α : Type} (key : α → ℚ) (c : ℚ) :
    ∀ l : List α,
      (pySortDescBy key l).filter (fun x => decide (key x = c)) =
        l.filter (fun x => decide (key x = c)) := by
  intro l
  induction l with
  | nil => rfl
  | cons a as ih =>
    rw [pySortDescBy, insertDescBy_filter]
    simp only [List.filter_cons, ih]

/-- C7: whenever the alternatives query succeeds, its result is exactly the
generated candidate list (the primary route plus the alternative per
configured blend that succeeded, in generation order) sorted stably in
descending order of `average_shade_score`: it is a permutation of the
candidates, pairwise descending, and within every key value the generation
order is preserved. -/
theorem getRouteAlternatives_sorted (ctx : RouterCtx) (params : RoutingParams)
    (start_point end_point : Coord) (num_alternatives : ℤ) (date : PyDate)
    (t : PyTime) (cands : List RouteResult)
    (h : (generateCandidates ctx params start_point end_point num_alternatives
      date t).2 = .ok cands) :
    (getRouteAlternatives ctx params start_point end_point num_alternatives
        date t).2 =
      .ok (pySortDescBy (fun r => r.average_shade_score) cands) ∧
    (pySortDescBy (fun r => r.average_shade_score) cands).Perm cands ∧
    (pySortDescBy (fun r => r.average_shade_score) cands).Pairwise
      (fun x y => y.average_shade_score ≤ x.average_shade_score) ∧
    ∀ c : ℚ,
      (pySortDescBy (fun r => r.average_shade_score) cands).filter
          (fun x => decide (x.average_shade_score = c)) =
        cands.filter (fun x => decide (x.average_shade_score = c)) := by
  refine ⟨?_, pySortDescBy_perm _ cands, pySortDescBy_pairwise _ cands,
    fun c => pySortDescBy_filter _ c cands⟩
  cases hg : generateCandidates ctx params start_point end_point
      num_alternatives date t with
  | mk p' r =>
    rw [hg] at h
    simp only at h
    subst h
    simp [getRouteAlternatives, hg]

/-- The concrete alternatives query of `witnessCtx` succeeds and produces
exactly the candidates extracted into `witnessCands`. -/
theorem witnessCands_ok :
    (generateCandidates witnessCtx defaultRoutingParams (0, 0) (0, 1) 3
      ⟨2024, 6, 21⟩ ⟨12, 0⟩).2 = .ok witnessCands := by
  obtain ⟨l, hl⟩ : ∃ l, (generateCandidates witnessCtx defaultRoutingParams
      (0, 0) (0, 1) 3 ⟨2024, 6, 21⟩ ⟨12, 0⟩).2 = .ok l := by
    simp +decide [generateCandidates, findShadiestRoute, witnessCtx,
      twoNodeGraph, SunCalculator.calculate_sun_position, SunCalculator.init,
      SunCalculator.local_to_utc, pyCombine, pyReplaceHour,
      SunCalculator.calculate_declination, SunCalculator.calculate_hour_angle,
      SunCalculator.calculate_elevation, SunCalculator.calculate_azimuth,
      trivialMath, trivialGeom, MathOps.toRadians, MathOps.toDegrees,
      PyDateTime.dayOfYear, daysBeforeMonth, isLeapYear, Bind.bind,
      Except.bind, findNearestNode, nearestStep, calculateEdgeShadeScores,
      SunCalculator.calculate_street_shade,
      SunCalculator.calculate_shade_projection, findOptimalRoute,
      nxShortestPath, dfsPath, Graph.neighbors, Graph.edgeLookup,
      assembleRoute, assembleSteps, npMean, alternativesLoop, pySlicePrefix,
      weightCombinations, defaultRoutingParams, combinedWeightOf, lengthOf]
  have h2 : witnessCands = l := by
    unfold witnessCands
    rw [hl]
  rw [hl, h2]

/-- Witness for C7 on the concrete two-node query with three candidates. -/
theorem getRouteAlternatives_sorted_witness :
    (generateCandidates witnessCtx defaultRoutingParams (0, 0) (0, 1) 3
        ⟨2024, 6, 21⟩ ⟨12, 0⟩).2 = .ok witnessCands ∧
    (getRouteAlternatives witnessCtx defaultRoutingParams (0, 0) (0, 1) 3
        ⟨2024, 6, 21⟩ ⟨12, 0⟩).2 =
      .ok (pySortDescBy (fun r => r.average_shade_score) witnessCands) :=
  ⟨witnessCands_ok,
   (getRouteAlternatives_sorted witnessCtx defaultRoutingParams (0, 0) (0, 1)
     3 ⟨2024, 6, 21⟩ ⟨12, 0⟩ witnessCands witnessCands_ok).1⟩

/-- Every pass through the alternatives loop leaves the global blend exactly
as it found it: the saved values are restored on success, on a skipped
iteration, and before an error propagates. -/
theorem alternativesLoop_params (ctx : RouterCtx) (primary : RouteResult)
    (start_point end_point : Coord) :
    ∀ (blends : List (ℚ × ℚ)) (params : RoutingParams)
      (acc : List RouteResult),
      (alternativesLoop ctx primary start_point end_point blends params
        acc).1 = params := by
  intro blends
  induction blends with
  | nil => intro params acc; rfl
  | cons b rest ih =>
    intro params acc
    rcases b with ⟨shade_w, time_w⟩
    rw [alternativesLoop]
    cases h1 : findNearestNode ctx.graph ctx.dist start_point with
    | none => exact ih params acc
    | some s =>
      cases h2 : findNearestNode ctx.graph ctx.dist end_point with
      | none => exact ih params acc
      | some e =>
        dsimp only
        cases h3 : findOptimalRoute
            (calculateEdgeShadeScores ctx.M ctx.ops ⟨shade_w, time_w⟩
              ctx.building_list ctx.tree_list primary.sun_position ctx.graph)
            s e none with
        | ok alt_info => exact ih params _
        | error err => rfl

/-- C8: `get_route_alternatives` restores the global `ROUTING_PARAMS` blend
(`shade_weight`, `time_weight`) to its pre-call value on every control path —
whether the call returns a result list or propagates an error from inside an
alternative computation — so no temporary override leaks into subsequent
queries. -/
theorem getRouteAlternatives_preserves_params (ctx : RouterCtx)
    (params : RoutingParams) (start_point end_point : Coord)
    (num_alternatives : ℤ) (date : PyDate) (t : PyTime) :
    (getRouteAlternatives ctx params start_point end_point num_alternatives
      date t).1 = params := by
  unfold getRouteAlternatives generateCandidates
  cases h : findShadiestRoute ctx params start_point end_point date t none with
  | error e => simp
  | ok primary =>
    dsimp only
    have hloop := alternativesLoop_params ctx primary start_point end_point
      (pySlicePrefix (num_alternatives - 1) weightCombinations) params
      [primary]
    cases hA : alternativesLoop ctx primary start_point end_point
        (pySlicePrefix (num_alternatives - 1) weightCombinations) params
        [primary] with
    | mk p' r =>
      rw [hA] at hloop
      cases r with
      | error e => exact hloop
      | ok alts => exact hloop

/-- After `add_edge(u, v, dta)`, looking the edge up by its endpoints finds
an entry whose `length` is the supplied one (a pre-existing entry keeps only
its shade fields). -/
theorem find?_addEdgeList_self (u v : Coord) (dta : EdgeData) :
    ∀ l : List (Coord × Coord × EdgeData),
      ((addEdgeList u v dta l).find? fun e =>
          ((e.1 = u ∧ e.2.1 = v) ∨ (e.1 = v ∧ e.2.1 = u) : Prop)).map
        (fun e => e.2.2.length) = some dta.length := by
  intro l
  induction l with
  | nil =>
    rw [addEdgeList, List.find?_cons_of_pos _ (by simp)]
    rfl
  | cons e rest ih =>
    rcases e with ⟨a, b, d⟩
    rw [addEdgeList]
    split
    · rename_i hm
      rw [List.find?_cons_of_pos _ (by simpa using hm)]
      rfl
    · rename_i hm
      rw [List.find?_cons_of_neg _ (by simpa using hm)]
      exact ih

/-- `add_edge` never removes an existing edge: any endpoint pair present in
the edge list before is still present afterwards. -/
theorem find?_addEdgeList_preserved (u v x y : Coord) (dta : EdgeData) :
    ∀ l : List (Coord × Coord × EdgeData),
      (l.find? fun e =>
        ((e.1 = x ∧ e.2.1 = y) ∨ (e.1 = y ∧ e.2.1 = x) : Prop)).isSome =
          true →
      ((addEdgeList u v dta l).find? fun e =>
        ((e.1 = x ∧ e.2.1 = y) ∨ (e.1 = y ∧ e.2.1 = x) : Prop)).isSome =
          true := by
  intro l
  induction l with
  | nil => intro h; simp at h
  | cons e rest ih =>
    rcases e with ⟨a, b, d⟩
    intro h
    rw [addEdgeList]
    split
    · by_cases hp : ((a = x ∧ b = y) ∨ (a = y ∧ b = x) : Prop)
      · rw [List.find?_cons_of_pos _ (by simpa using hp)]
        rfl
      · rw [List.find?_cons_of_neg _ (by simpa using hp)]
        rw [List.find?_cons_of_neg _ (by simpa using hp)] at h
        exact h
    · by_cases hp : ((a = x ∧ b = y) ∨ (a = y ∧ b = x) : Prop)
      · rw [List.find?_cons_of_pos _ (by simpa using hp)]
        rfl
      · rw [List.find?_cons_of_neg _ (by simpa using hp)]
        rw [List.find?_cons_of_neg _ (by simpa using hp)] at h
        exact ih h

/-- `Option.map` preserves `isSome`. -/
theorem optionMap_isSome {α β : Type} (f : α → β) (o : Option α) :
    (o.map f).isSome = o.isSome := by
  cases o <;> rfl

/-- `add_node` never changes the edge list. -/
theorem addNode_edges (G : Graph) (p : Coord) : (G.addNode p).edges = G.edges := by
  unfold Graph.addNode
  split <;> rfl

/-- Looking up the endpoints just passed to `add_edge` finds an entry whose
`length` is the one just assigned. -/
theorem edgeLookup_addEdge (G : Graph) (u v : Coord) (dta : EdgeData) :
    ((G.addEdge u v dta).edgeLookup u v).map EdgeData.length =
      some dta.length := by
  unfold Graph.addEdge Graph.edgeLookup
  dsimp only
  rw [Option.map_map]
  exact find?_addEdgeList_self u v dta _

/-- Processing one street row never removes an existing edge. -/
theorem hasEdge_addStreetRow (G : Graph) (row : StreetRow) (x y : Coord)
    (h : G.hasEdge x y = true) : (addStreetRow G row).hasEdge x y = true := by
  unfold Graph.hasEdge Graph.edgeLookup at h ⊢
  rw [optionMap_isSome] at h ⊢
  unfold addStreetRow
  split
  · split
    · unfold Graph.addEdge
      dsimp only
      simp only [addNode_edges]
      exact find?_addEdgeList_preserved _ _ x y _ _ h
    · exact h
  · exact h

/-- Graph construction never removes an edge added by an earlier row. -/
theorem hasEdge_foldl (rows : List StreetRow) (G : Graph) (x y : Coord)
    (h : G.hasEdge x y = true) :
    (rows.foldl addStreetRow G).hasEdge x y = true := by
  induction rows generalizing G with
  | nil => exact h
  | cons r rs ih => exact ih _ (hasEdge_addStreetRow G r x y h)

/-- Processing a valid ≥2-coordinate row without a `length_m` column adds an
edge between its endpoints whose length is the 100 m default. -/
theorem addStreetRow_default_length (G : Graph) (row : StreetRow)
    (hvalid : row.is_valid = true) (hlen : 2 ≤ row.geometry.length)
    (hnolen : row.length_m = none) :
    ((addStreetRow G row).edgeLookup (row.geometry.headD (0, 0))
        (row.geometry.getLastD (0, 0))).map EdgeData.length = some 100 := by
  have hne : row.geometry.isEmpty = false := by
    cases hgeo : row.geometry with
    | nil => rw [hgeo] at hlen; simp at hlen
    | cons a as => rfl
  unfold addStreetRow
  rw [hvalid, hne]
  simp only [Bool.not_false, Bool.true_and, if_true]
  rw [if_pos hlen]
  have h100 := edgeLookup_addEdge
    ((G.addNode (row.geometry.headD (0, 0))).addNode
      (row.geometry.getLastD (0, 0)))
    (row.geometry.headD (0, 0)) (row.geometry.getLastD (0, 0))
    { length := row.length_m.getD 100, geometry := row.geometry,
      shade_score := none, combined_weight := none }
  rw [hnolen] at h100 ⊢
  simpa using h100

/-- C10: a street row with valid, non-empty geometry of at least two
coordinates but no `length_m` attribute is not excluded: graph construction
creates an edge between its first and last coordinate, and the edge data it
assigns carries the default length of 100 m (the geometry is not measured).
-/
theorem createRoutingGraph_default_length (rows : List StreetRow)
    (row : StreetRow) (hmem : row ∈ rows) (hvalid : row.is_valid = true)
    (hlen : 2 ≤ row.geometry.length) (hnolen : row.length_m = none) :
    (createRoutingGraph rows).hasEdge (row.geometry.headD (0, 0))
        (row.geometry.getLastD (0, 0)) = true ∧
    ∀ G : Graph, ((addStreetRow G row).edgeLookup (row.geometry.headD (0, 0))
        (row.geometry.getLastD (0, 0))).map EdgeData.length = some 100 := by
  constructor
  · obtain ⟨s, t, rfl⟩ := List.append_of_mem hmem
    unfold createRoutingGraph
    rw [List.foldl_append, List.foldl_cons]
    apply hasEdge_foldl
    have h100 := addStreetRow_default_length (s.foldl addStreetRow
      { nodes := [], edges := [] }) row hvalid hlen hnolen
    unfold Graph.hasEdge
    cases hl : (addStreetRow (s.foldl addStreetRow
        { nodes := [], edges := [] }) row).edgeLookup
        (row.geometry.headD (0, 0)) (row.geometry.getLastD (0, 0)) with
    | none => rw [hl] at h100; simp at h100
    | some d => rfl
  · intro G
    exact addStreetRow_default_length G row hvalid hlen hnolen

/-- Witness for C10 on a one-row street network without `length_m`. -/
theorem createRoutingGraph_default_length_witness :
    (⟨[(0, 0), (1, 0)], true, none⟩ : StreetRow) ∈ witnessRows ∧
    (createRoutingGraph witnessRows).hasEdge (0, 0) (1, 0) = true ∧
    ((addStreetRow { nodes := [], edges := [] }
        ⟨[(0, 0), (1, 0)], true, none⟩).edgeLookup (0, 0) (1, 0)).map
      EdgeData.length = some 100 :=
  ⟨by decide,
   (createRoutingGraph_default_length witnessRows ⟨[(0, 0), (1, 0)], true, none⟩
     (by decide) rfl (by decide) rfl).1,
   (createRoutingGraph_default_length witnessRows ⟨[(0, 0), (1, 0)], true, none⟩
     (by decide) rfl (by decide) rfl).2 { nodes := [], edges := [] }⟩
